import Mathlib

/-!
Verification development for the telex Reddit client.

The definitions below shallowly embed the parts of the Python sources that
the verified properties are about:

* `src/windows/post_detail.py` — the recursive comment loader
  `PostDetailWindow.__load_comments` (modelled over a JSON value type with
  explicit Python dictionary/subscript/iteration semantics, including the
  exceptions Python would raise);
* `src/services.py` and `src/utils/services.py` — the two generations of the
  Reddit REST client (request construction and try/except error handling);
* `src/services.py` — `AWSClient.create_secret`;
* `src/windows/home.py` — the sort-popover construction and its mutation of
  `store.current_sort`;
* `src/utils/common.py` — `get_submission_time`.
-/

/-- JSON-like Python values: the payloads the Reddit API returns.  Python
dictionaries are modelled as association lists (keys are unique in dicts
produced by JSON parsing; lookup takes the first match). -/
inductive JValue where
  | null
  | bool (b : Bool)
  | num (n : Int)
  | str (s : String)
  | arr (elems : List JValue)
  | obj (fields : List (String × JValue))

/-- Errors the embedded Python code can raise, plus fuel exhaustion of the
fuelled evaluator. -/
inductive PyError where
  | typeError
  | attributeError
  | keyError (key : String)
  | outOfFuel
deriving DecidableEq

/-- Dictionary lookup: Python `d[k]` / `k in d` key search. -/
def dictGet (fs : List (String × JValue)) (k : String) : Option JValue :=
  (fs.find? (fun p => p.1 == k)).map (fun p => p.2)

/-- Python `==` comparison of a JSON value against a string literal. -/
def pyEqStr : JValue → String → Bool
  | .str s, k => s == k
  | _, _ => false

/-- Python `v is None`. -/
def JValue.isNull : JValue → Bool
  | .null => true
  | _ => false

/-- Substring test on character lists (Python `needle in haystack` for
strings). -/
def charsInfix (needle : List Char) : List Char → Bool
  | [] => needle.isEmpty
  | c :: t => needle.isPrefixOf (c :: t) || charsInfix needle t

/-- Python `k in v` membership test: key lookup for dicts, substring test for
strings, element equality for lists, `TypeError` otherwise. -/
def pyContains : JValue → String → Except PyError Bool
  | .obj fs, k => .ok (dictGet fs k).isSome
  | .str s, k => .ok (charsInfix k.data s.data)
  | .arr xs, k => .ok (xs.any (fun v => pyEqStr v k))
  | _, _ => .error .typeError

/-- Python `v[k]` subscription with a string key: dict lookup raising
`KeyError` when absent, `TypeError` on every non-dict value. -/
def pySubscript : JValue → String → Except PyError JValue
  | .obj fs, k =>
    match dictGet fs k with
    | some v => .ok v
    | none => .error (.keyError k)
  | _, _ => .error .typeError

/-- Python `v.get(k, default)`: only dictionaries have `.get`; every other
value raises `AttributeError`. -/
def dictGetD : JValue → String → JValue → Except PyError JValue
  | .obj fs, k, d => .ok ((dictGet fs k).getD d)
  | _, _, _ => .error .attributeError

/-- Python truthiness of a JSON value (`if replies_data:`). -/
def pyTruthy : JValue → Bool
  | .null => false
  | .bool b => b
  | .num n => n != 0
  | .str s => s != ""
  | .arr xs => !xs.isEmpty
  | .obj fs => !fs.isEmpty

/-- Python `for x in v`: lists yield their elements, dicts their keys,
strings their one-character substrings; other values raise `TypeError`. -/
def pyIter : JValue → Except PyError (List JValue)
  | .arr xs => .ok xs
  | .obj fs => .ok (fs.map (fun p => JValue.str p.1))
  | .str s => .ok (s.data.map (fun c => JValue.str (String.singleton c)))
  | _ => .error .typeError

/-- The observable effect of rendering one comment node: the widget appended
to `parent_box`, with the fields the code reads from the node.
`marginStart` is the `margin_start=nesting_level * 30` of the comment box. -/
structure RenderedComment where
  marginStart : Nat
  author : JValue
  body : JValue
  score : JValue

/-- `PostDetailWindow.__load_comments` from `src/windows/post_detail.py`,
fuelled.  The result is the list of comment widgets the call appends to
`parent_box`, in append order (a node's own widget, then — because the
recursion passes `parent_box`, not `comment_box` — the widgets of its reply
subtree), or the Python exception the call raises.  `.error .outOfFuel` only
signals evaluator fuel exhaustion, never a behaviour of the code. -/
def loadComments : Nat → JValue → Nat → Except PyError (List RenderedComment)
  | 0, _, _ => .error .outOfFuel
  | fuel + 1, commentData, nestingLevel =>
    -- if "kind" not in comment_data or comment_data["kind"] != "t1": return
    match pyContains commentData "kind" with
    | .error e => .error e
    | .ok hasKind =>
      if !hasKind then .ok [] else
      match pySubscript commentData "kind" with
      | .error e => .error e
      | .ok kind =>
        if !(pyEqStr kind "t1") then .ok [] else
        -- data = comment_data.get("data", {})
        match dictGetD commentData "data" (.obj []) with
        | .error e => .error e
        | .ok data =>
          -- if "author" not in data or data.get("author") is None: return
          match pyContains data "author" with
          | .error e => .error e
          | .ok hasAuthor =>
            if !hasAuthor then .ok [] else
            match dictGetD data "author" .null with
            | .error e => .error e
            | .ok authorOpt =>
              if authorOpt.isNull then .ok [] else
              -- author = data["author"]; body = data["body"]
              match pySubscript data "author" with
              | .error e => .error e
              | .ok author =>
                match pySubscript data "body" with
                | .error e => .error e
                | .ok body =>
                  -- score = data.get("score", 0)
                  match dictGetD data "score" (.num 0) with
                  | .error e => .error e
                  | .ok score =>
                    let comment : RenderedComment :=
                      ⟨nestingLevel * 30, author, body, score⟩
                    -- replies_data = data.get("replies", {})
                    match dictGetD data "replies" (.obj []) with
                    | .error e => .error e
                    | .ok repliesData =>
                      -- if replies_data and "data" in replies_data:
                      if !(pyTruthy repliesData) then .ok [comment] else
                      match pyContains repliesData "data" with
                      | .error e => .error e
                      | .ok hasData =>
                        if !hasData then .ok [comment] else
                        match pySubscript repliesData "data" with
                        | .error e => .error e
                        | .ok inner =>
                          -- children = replies_data["data"].get("children", [])
                          match dictGetD inner "children" (.arr []) with
                          | .error e => .error e
                          | .ok children =>
                            -- for reply in children:
                            --   self.__load_comments(parent_box, reply, nesting_level + 1)
                            match pyIter children with
                            | .error e => .error e
                            | .ok elems =>
                              match elems.foldlM
                                  (fun (acc : List RenderedComment) reply =>
                                    match loadComments fuel reply (nestingLevel + 1) with
                                    | Except.error e => Except.error e
                                    | Except.ok rs => Except.ok (acc ++ rs))
                                  ([] : List RenderedComment) with
                              | .error e => .error e
                              | .ok rest => .ok (comment :: rest)

mutual

/-- Size of a JSON value, the measure showing the comment recursion always
descends: enough fuel for `loadComments` never to run out. -/
def jsize : JValue → Nat
  | .null => 1
  | .bool _ => 1
  | .num _ => 1
  | .str s => s.length + 1
  | .arr xs => 1 + jsizeList xs
  | .obj fs => 1 + jsizeFields fs

/-- Sum of `jsize` over a list of values. -/
def jsizeList : List JValue → Nat
  | [] => 0
  | x :: t => jsize x + jsizeList t

/-- Size of a dictionary field list: each field counts its key length too. -/
def jsizeFields : List (String × JValue) → Nat
  | [] => 0
  | p :: t => p.1.length + 1 + jsize p.2 + jsizeFields t

end

/-- Exceptions of the two Python HTTP libraries the clients use. -/
inductive HttpError where
  | httpxRequestError (msg : String)
  | requestsRequestException (msg : String)
deriving DecidableEq

/-- An HTTP response as the code observes it: `res.status_code` and
`res.json()`. -/
structure HttpResponse where
  status_code : Int
  body : JValue

/-- The single HTTP attempt a client method makes: it either yields a
response (of any status code) or raises a transport error. -/
def HttpOutcome := Except HttpError HttpResponse

/-- The `{"status_code": ..., "json": ...}` dictionary every Reddit client
method returns on a response. -/
structure ApiResult where
  status_code : Int
  json : JValue

/-- Request headers of the Reddit clients (`self.headers`). -/
structure Headers where
  authorization : String
  userAgent : String

/-- One HTTP request as constructed by a client method. -/
structure Request where
  method : String
  url : String
  headers : Headers
  timeout : Nat

/-- Character-level substitution of the `{0}` placeholder. -/
def pyFormatChars (arg : List Char) : List Char → List Char
  | '\x7b' :: '0' :: '\x7d' :: rest => arg ++ pyFormatChars arg rest
  | c :: rest => c :: pyFormatChars arg rest
  | [] => []

/-- Python `"...{0}...".format(sub)`: substitute every `{0}` placeholder. -/
def pyFormat (template arg : String) : String :=
  String.mk (pyFormatChars arg.data template.data)

namespace Services
/-! The later Reddit client, `src/services.py` (httpx/requests).  Each
`*_request` definition is the request the method builds; each response
handler maps the outcome of that single attempt through the method's
`try/except` block.  An exception type not named by the `except` clause
propagates unchanged. -/

/-- `self.domain` set in `Reddit.__init__`. -/
def domain : String := "https://{0}.reddit.com"

/-- `Reddit.__init__` headers (the Basic authorization string and platform
name are inputs). -/
def initHeaders (basicAuth system : String) : Headers :=
  ⟨"Basic " ++ basicAuth, system ++ ":telex:v0.1.0 (by /u/Intrepid-Set1590)"⟩

/-- `Reddit.inject_token`: overwrite the Authorization header. -/
def inject_token (h : Headers) (token : String) : Headers :=
  ⟨"Bearer " ++ token, h.userAgent⟩

/-- `try: ... except httpx.RequestError as e: raise httpx.RequestError(msg) from e`
around a single request attempt; any response becomes the result dict. -/
def handleHttpx (failMsg : String) : HttpOutcome → Except HttpError ApiResult
  | .ok res => .ok ⟨res.status_code, res.body⟩
  | .error (.httpxRequestError _) => .error (.httpxRequestError failMsg)
  | .error e => .error e

/-- Same shape with `except requests.RequestException`. -/
def handleRequests (failMsg : String) : HttpOutcome → Except HttpError ApiResult
  | .ok res => .ok ⟨res.status_code, res.body⟩
  | .error (.requestsRequestException _) => .error (.requestsRequestException failMsg)
  | .error e => .error e

/-- Request of `Reddit.generate_access_token` (httpx POST). -/
def generate_access_token_request (h : Headers) : Request :=
  ⟨"POST", pyFormat domain "www" ++ "/api/v1/access_token", h, 30⟩

/-- Result of `Reddit.generate_access_token` (catches `httpx.RequestError`). -/
def generate_access_token (outcome : HttpOutcome) : Except HttpError ApiResult :=
  handleHttpx "Failed to generate access token" outcome

/-- Request of `Reddit.retrieve_listings` (httpx GET). -/
def retrieve_listings_request (h : Headers) (category : String) : Request :=
  ⟨"GET", pyFormat domain "oauth" ++ "/" ++ category, h, 30⟩

/-- Result of `Reddit.retrieve_listings` (catches `httpx.RequestError`). -/
def retrieve_listings (outcome : HttpOutcome) : Except HttpError ApiResult :=
  handleHttpx "Failed to retrieve listings" outcome

/-- Request of `Reddit.retrieve_user_details` (httpx GET). -/
def retrieve_user_details_request (h : Headers) : Request :=
  ⟨"GET", pyFormat domain "oauth" ++ "/api/v1/me", h, 30⟩

/-- Result of `Reddit.retrieve_user_details`: the `except` clause names
`requests.RequestException`, so an httpx transport error passes through. -/
def retrieve_user_details (outcome : HttpOutcome) : Except HttpError ApiResult :=
  handleRequests "Failed to retrieve user details" outcome

/-- Request of `Reddit.retrieve_comments` (httpx GET). -/
def retrieve_comments_request (h : Headers) (postId : String) : Request :=
  ⟨"GET", pyFormat domain "oauth" ++ "/comments/" ++ postId, h, 30⟩

/-- Result of `Reddit.retrieve_comments` (catches `requests.RequestException`). -/
def retrieve_comments (outcome : HttpOutcome) : Except HttpError ApiResult :=
  handleRequests "Failed to retrieve comments" outcome

/-- Request of `Reddit.retrieve_profile_details` (httpx GET). -/
def retrieve_profile_details_request (h : Headers) (username category : String) : Request :=
  ⟨"GET", pyFormat domain "oauth" ++ "/user/" ++ username ++ "/" ++ category, h, 30⟩

/-- Result of `Reddit.retrieve_profile_details` (catches `httpx.RequestError`). -/
def retrieve_profile_details (outcome : HttpOutcome) : Except HttpError ApiResult :=
  handleHttpx "Failed to retrieve about details" outcome

/-- Request of `Reddit.retrieve_subreddits` (httpx GET). -/
def retrieve_subreddits_request (h : Headers) : Request :=
  ⟨"GET", pyFormat domain "oauth" ++ "/subreddits/mine/subscriber", h, 30⟩

/-- Result of `Reddit.retrieve_subreddits` (catches `httpx.RequestError`). -/
def retrieve_subreddits (outcome : HttpOutcome) : Except HttpError ApiResult :=
  handleHttpx "Failed to retrieve subreddits" outcome

/-- Request of `Reddit.submit_post` (requests POST). -/
def submit_post_request (h : Headers) : Request :=
  ⟨"POST", pyFormat domain "oauth" ++ "/api/submit", h, 30⟩

/-- Result of `Reddit.submit_post` (catches `requests.RequestException`). -/
def submit_post (outcome : HttpOutcome) : Except HttpError ApiResult :=
  handleRequests "Failed to submit post" outcome

end Services

namespace UtilsServices
/-! The earlier Reddit client, `src/utils/services.py` (requests only).
Its two request methods swallow `requests.RequestException` and return
`None`; the result type is therefore `Option` inside `Except`. -/

/-- `self.domain` of the early client. -/
def domain : String := "https://{0}.reddit.com/api/v1"

/-- `Reddit.generate_access_token` of the early client: a transport error of
the requests library is swallowed into `None`. -/
def generate_access_token : HttpOutcome → Except HttpError (Option ApiResult)
  | .ok res => .ok (some ⟨res.status_code, res.body⟩)
  | .error (.requestsRequestException _) => .ok none
  | .error e => .error e

/-- `Reddit.retrieve_listings` of the early client: same swallowing shape. -/
def retrieve_listings : HttpOutcome → Except HttpError (Option ApiResult)
  | .ok res => .ok (some ⟨res.status_code, res.body⟩)
  | .error (.requestsRequestException _) => .ok none
  | .error e => .error e

end UtilsServices

/-- Outcome of one boto3 Secrets Manager call: a response, or a
`botocore.exceptions.ClientError` carrying an error code. -/
inductive AwsOutcome where
  | ok (resp : JValue)
  | clientError (code : String)

/-- `AWSClient.update_secret` from `src/services.py`: returns the raw AWS
response, or re-raises `ClientError("Failed to update secret")`. -/
def update_secret : AwsOutcome → Except String JValue
  | .ok r => .ok r
  | .clientError _ => .error "Failed to update secret"

/-- `AWSClient.create_secret` from `src/services.py`.  `createOutcome` is the
result of the `create_secret` AWS call, `updateOutcome` that of the
`update_secret` call made when the secret already exists.  `Except.ok none`
is Python falling off the end of the function and returning `None`. -/
def create_secret (createOutcome updateOutcome : AwsOutcome) :
    Except String (Option JValue) :=
  match createOutcome with
  | .clientError code =>
    -- except ClientError as e: if code == "ResourceExistsException": return update
    if code == "ResourceExistsException" then
      (update_secret updateOutcome).map some
    else
      .ok none
  | .ok res =>
    -- else: return {"status": "success", "json": res}
    .ok (some (.obj [("status", .str "success"), ("json", res)]))

/-- `store.post_sort_type` from `src/store.py`. -/
def post_sort_type : List String := ["Best", "New", "Hot", "Top", "Rising"]

/-- Python `list[i]`: `IndexError` when out of range. -/
def listIndex (xs : List String) (i : Nat) : Except String String :=
  match xs.get? i with
  | some x => .ok x
  | none => .error "IndexError"

/-- `HomeWindow.__add_sort_popover_child` from `src/windows/home.py`: builds
the five sort check buttons, incrementing the global `store.current_sort`
before each of the last four label lookups.  The input is the value of
`store.current_sort` on entry; the result is its value on exit together with
the five button labels in order. -/
def add_sort_popover_child (currentSort : Nat) : Except String (Nat × List String) :=
  match listIndex post_sort_type currentSort with
  | .error e => .error e
  | .ok l0 =>
    match listIndex post_sort_type (currentSort + 1) with
    | .error e => .error e
    | .ok l1 =>
      match listIndex post_sort_type (currentSort + 2) with
      | .error e => .error e
      | .ok l2 =>
        match listIndex post_sort_type (currentSort + 3) with
        | .error e => .error e
        | .ok l3 =>
          match listIndex post_sort_type (currentSort + 4) with
          | .error e => .error e
          | .ok l4 => .ok (currentSort + 4, [l0, l1, l2, l3, l4])

/-- `HomeWindow.__add_menu_button_child`: reads (without mutating)
`store.post_sort_type[store.current_sort]` for the menu label. -/
def add_menu_button_child (currentSort : Nat) : Except String String :=
  listIndex post_sort_type currentSort

/-- `HomeWindow.customise_titlebar`: builds the menu-button child, then the
sort popover child.  Only the latter mutates `store.current_sort`; the
returned `Nat` is the store's sort state after the call. -/
def customise_titlebar (currentSort : Nat) : Except String (Nat × List String × String) :=
  match add_menu_button_child currentSort with
  | .error e => .error e
  | .ok menuLabel =>
    match add_sort_popover_child currentSort with
    | .error e => .error e
    | .ok st => .ok (st.1, st.2, menuLabel)

/-- The effect of `HomeWindow.render_page` on `store.current_sort`: the page
render calls `customise_titlebar` (the rest of the method never touches the
sort state). -/
def render_page_sort_state (currentSort : Nat) : Except String Nat :=
  match customise_titlebar currentSort with
  | .error e => .error e
  | .ok r => .ok r.1

/-- `Seconds` constants from `src/utils/constants.py`. -/
def Seconds.MINUTE : Nat := 60

/-- `Seconds.HOUR`. -/
def Seconds.HOUR : Nat := 3600

/-- `Seconds.DAY`. -/
def Seconds.DAY : Nat := 86400

/-- `Seconds.WEEK`. -/
def Seconds.WEEK : Nat := 604800

/-- `get_submission_time` from `src/utils/common.py`.  `now` is the current
UTC time in seconds (`datetime.now(tz=UTC)`), `utc_timestamp` the post's
timestamp; `total_seconds = abs((now - event).total_seconds())`. -/
def get_submission_time (now utc_timestamp : Int) : String :=
  let total_seconds : Nat := (now - utc_timestamp).natAbs
  if total_seconds < Seconds.MINUTE then
    "Less than a minute ago"
  else if total_seconds < Seconds.HOUR then
    let minutes := total_seconds / Seconds.MINUTE
    toString minutes ++ " minute" ++ (if minutes > 1 then "s" else "") ++ " ago"
  else if total_seconds < Seconds.DAY then
    let hours := total_seconds / Seconds.HOUR
    toString hours ++ " hour" ++ (if hours > 1 then "s" else "") ++ " ago"
  else if total_seconds < Seconds.WEEK then
    let days := total_seconds / Seconds.DAY
    toString days ++ " day" ++ (if days > 1 then "s" else "") ++ " ago"
  else
    let weeks := total_seconds / Seconds.WEEK
    toString weeks ++ " week" ++ (if weeks > 1 then "s" else "") ++ " ago"

/-! Size lemmas used by the termination theorem for the comment loader. -/

/-- Every JSON value has positive size. -/
lemma jsize_pos (v : JValue) : 1 ≤ jsize v := by
  cases v <;> simp only [jsize] <;> omega

/-- A successful dictionary lookup accounts for its key and value inside the
field-list size. -/
lemma jsizeFields_of_dictGet {fs : List (String × JValue)} {k : String} {v : JValue}
    (h : dictGet fs k = some v) : k.length + 1 + jsize v ≤ jsizeFields fs := by
  induction fs with
  | nil => simp [dictGet] at h
  | cons p t ih =>
    by_cases hpk : (p.1 == k) = true
    · have hk : p.1 = k := eq_of_beq hpk
      have h2 : some p.2 = some v := by
        rw [← h]
        simp [dictGet, List.find?, hpk]
      have hv : jsize p.2 = jsize v := by rw [Option.some.inj h2]
      have hkl : p.1.length = k.length := by rw [hk]
      simp only [jsizeFields]
      omega
    · have h' : dictGet t k = some v := by
        rw [← h]
        simp [dictGet, List.find?, Bool.of_not_eq_true hpk]
      have := ih h'
      simp only [jsizeFields]
      omega

/-- A dictionary field value is strictly smaller than the dictionary. -/
lemma jsize_lt_of_dictGet {fs : List (String × JValue)} {k : String} {v : JValue}
    (h : dictGet fs k = some v) : jsize v < jsize (.obj fs) := by
  have := jsizeFields_of_dictGet h
  simp only [jsize]
  omega

/-- A dictionary with a `"kind"` field has size at least 7. -/
lemma jsize_obj_of_kind {fs : List (String × JValue)} {v : JValue}
    (h : dictGet fs "kind" = some v) : 7 ≤ jsize (.obj fs) := by
  have h1 := jsizeFields_of_dictGet h
  have h2 := jsize_pos v
  have hl : "kind".length = 4 := rfl
  simp only [jsize]
  omega

/-- A list element contributes to the list size. -/
lemma jsizeList_of_mem {x : JValue} {xs : List JValue} (h : x ∈ xs) :
    jsize x ≤ jsizeList xs := by
  induction xs with
  | nil => cases h
  | cons y t ih =>
    rcases List.mem_cons.mp h with h | h
    · rw [h]; simp only [jsizeList]; omega
    · have := ih h; simp only [jsizeList]; omega

/-- A list element is strictly smaller than the list value. -/
lemma jsize_lt_of_mem_arr {x : JValue} {xs : List JValue} (h : x ∈ xs) :
    jsize x < jsize (.arr xs) := by
  have := jsizeList_of_mem h
  simp only [jsize]
  omega

/-- A dictionary key, seen as a string value (Python iterates dictionaries by
key), is strictly smaller than the dictionary. -/
lemma jsize_key_lt_obj {p : String × JValue} {gs : List (String × JValue)}
    (h : p ∈ gs) : jsize (JValue.str p.1) < jsize (.obj gs) := by
  induction gs with
  | nil => cases h
  | cons q t ih =>
    rcases List.mem_cons.mp h with h | h
    · rw [h]
      have := jsize_pos q.2
      simp only [jsize, jsizeFields]
      omega
    · have h2 := ih h
      have h3 := jsize_pos q.2
      simp only [jsize, jsizeFields] at h2 ⊢
      omega

/-- One-character strings (Python string iteration yields them) have size 2. -/
lemma jsize_singleton (c : Char) : jsize (JValue.str (String.singleton c)) = 2 := by
  simp [jsize, String.singleton, String.length]

/-- The reply loop of `__load_comments` cannot run out of fuel when none of
the recursive calls it makes does. -/
lemma foldl_load_ne_outOfFuel (n d : Nat) (elems : List JValue)
    (acc : List RenderedComment)
    (h : ∀ x ∈ elems, loadComments n x d ≠ .error .outOfFuel) :
    elems.foldlM
      (fun (acc : List RenderedComment) reply =>
        match loadComments n reply d with
        | Except.error e => Except.error e
        | Except.ok rs => Except.ok (acc ++ rs)) acc
      ≠ .error .outOfFuel := by
  induction elems generalizing acc with
  | nil => simp [List.foldlM, pure, Except.pure]
  | cons x t ih =>
    simp only [List.foldlM]
    cases hx : loadComments n x d with
    | error e =>
      have he : e ≠ PyError.outOfFuel := by
        intro hcon
        exact h x (by simp) (by rw [hx, hcon])
      simp only [hx, Bind.bind, Except.bind]
      simpa using he
    | ok rs =>
      simp only [hx, Bind.bind, Except.bind]
      exact ih (acc ++ rs) (fun y hy => h y (List.mem_cons_of_mem _ hy))

/-- Unfolding helper: prepending the node's own widget to a reply-loop result
that did not run out of fuel cannot produce a fuel error. -/
lemma match_fold_ne (res : Except PyError (List RenderedComment)) (c : RenderedComment)
    (h : res ≠ .error .outOfFuel) :
    (match res with
     | Except.error e => Except.error e
     | Except.ok rest => Except.ok (c :: rest)) ≠ Except.error PyError.outOfFuel := by
  cases res with
  | error e => simpa using h
  | ok rest => simp

/-- C4: `PostDetailWindow.__load_comments` terminates on every finite comment
tree: with fuel at least the size of the node, the fuelled evaluator never
exhausts its fuel — a node whose replies entry is empty, missing, or without
a `data.children` list triggers no recursive call, and every recursive call
descends into a strictly smaller subvalue (or an immediately-returning
one-character string produced by Python string iteration). -/
theorem c4_load_comments_terminates (j : JValue) (d fuel : Nat) (h : jsize j ≤ fuel) :
    loadComments fuel j d ≠ .error .outOfFuel := by
  induction fuel generalizing j d with
  | zero =>
    have := jsize_pos j
    omega
  | succ n ih =>
    cases j with
    | null => simp [loadComments, pyContains]
    | bool b => simp [loadComments, pyContains]
    | num m => simp [loadComments, pyContains]
    | str s =>
      simp only [loadComments, pyContains]
      cases hc : charsInfix "kind".data s.data <;> simp [hc, pySubscript]
    | arr xs =>
      simp only [loadComments, pyContains]
      cases hc : xs.any (fun v => pyEqStr v "kind") <;> simp [hc, pySubscript]
    | obj fs =>
      have hsize : jsize (JValue.obj fs) ≤ n + 1 := h
      simp only [loadComments, pyContains]
      cases hk : dictGet fs "kind" with
      | none => simp [hk]
      | some kv =>
        have h7 : 7 ≤ jsize (JValue.obj fs) := jsize_obj_of_kind hk
        cases ht1 : pyEqStr kv "t1" with
        | false => simp [hk, pySubscript, ht1]
        | true =>
          cases hd : dictGet fs "data" with
          | none =>
            have hnil : dictGet ([] : List (String × JValue)) "author" = none := rfl
            simp [hk, pySubscript, ht1, dictGetD, hd, pyContains, hnil]
          | some dv =>
            cases dv with
            | null => simp [hk, pySubscript, ht1, dictGetD, hd, pyContains]
            | bool b2 => simp [hk, pySubscript, ht1, dictGetD, hd, pyContains]
            | num m2 => simp [hk, pySubscript, ht1, dictGetD, hd, pyContains]
            | str s2 =>
              cases hc2 : charsInfix "author".data s2.data <;>
                simp [hk, pySubscript, ht1, dictGetD, hd, pyContains, hc2]
            | arr xs2 =>
              cases hc2 : xs2.any (fun v => pyEqStr v "author") <;>
                simp [hk, pySubscript, ht1, dictGetD, hd, pyContains, hc2]
            | obj ds =>
              cases ha : dictGet ds "author" with
              | none => simp [hk, pySubscript, ht1, dictGetD, hd, pyContains, ha]
              | some av =>
                cases hnl : av.isNull with
                | true => simp [hk, pySubscript, ht1, dictGetD, hd, pyContains, ha, hnl]
                | false =>
                  cases hb : dictGet ds "body" with
                  | none =>
                    simp [hk, pySubscript, ht1, dictGetD, hd, pyContains, ha, hnl, hb]
                  | some bv =>
                    cases hr : dictGet ds "replies" with
                    | none =>
                      simp [hk, pySubscript, ht1, dictGetD, hd, pyContains, ha, hnl, hb,
                        hr, pyTruthy]
                    | some rv =>
                      cases htr : pyTruthy rv with
                      | false =>
                        simp [hk, pySubscript, ht1, dictGetD, hd, pyContains, ha, hnl, hb,
                          hr, htr]
                      | true =>
                        cases rv with
                        | null => simp [pyTruthy] at htr
                        | bool b3 =>
                          simp [hk, pySubscript, ht1, dictGetD, hd, pyContains, ha, hnl,
                            hb, hr, htr]
                        | num m3 =>
                          simp [hk, pySubscript, ht1, dictGetD, hd, pyContains, ha, hnl,
                            hb, hr, htr]
                        | str s3 =>
                          cases hc3 : charsInfix "data".data s3.data <;>
                            simp [hk, pySubscript, ht1, dictGetD, hd, pyContains, ha, hnl,
                              hb, hr, htr, hc3]
                        | arr xs3 =>
                          cases hc3 : xs3.any (fun v => pyEqStr v "data") <;>
                            simp [hk, pySubscript, ht1, dictGetD, hd, pyContains, ha, hnl,
                              hb, hr, htr, hc3]
                        | obj rf =>
                          cases hi : dictGet rf "data" with
                          | none =>
                            simp [hk, pySubscript, ht1, dictGetD, hd, pyContains, ha, hnl,
                              hb, hr, htr, hi]
                          | some iv =>
                            cases iv with
                            | null =>
                              simp [hk, pySubscript, ht1, dictGetD, hd, pyContains, ha,
                                hnl, hb, hr, htr, hi]
                            | bool b4 =>
                              simp [hk, pySubscript, ht1, dictGetD, hd, pyContains, ha,
                                hnl, hb, hr, htr, hi]
                            | num m4 =>
                              simp [hk, pySubscript, ht1, dictGetD, hd, pyContains, ha,
                                hnl, hb, hr, htr, hi]
                            | str s4 =>
                              simp [hk, pySubscript, ht1, dictGetD, hd, pyContains, ha,
                                hnl, hb, hr, htr, hi]
                            | arr xs4 =>
                              simp [hk, pySubscript, ht1, dictGetD, hd, pyContains, ha,
                                hnl, hb, hr, htr, hi]
                            | obj df =>
                              cases hcv : dictGet df "children" with
                              | none =>
                                simp [hk, pySubscript, ht1, dictGetD, hd, pyContains, ha,
                                  hnl, hb, hr, htr, hi, hcv, pyIter, List.foldlM, pure,
                                  Except.pure]
                              | some cv =>
                                have l3 : jsize (JValue.obj df) < jsize (JValue.obj rf) :=
                                  jsize_lt_of_dictGet hi
                                have l4 : jsize (JValue.obj rf) < jsize (JValue.obj ds) :=
                                  jsize_lt_of_dictGet hr
                                have l5 : jsize (JValue.obj ds) < jsize (JValue.obj fs) :=
                                  jsize_lt_of_dictGet hd
                                have l6 : jsize cv < jsize (JValue.obj df) :=
                                  jsize_lt_of_dictGet hcv
                                cases cv with
                                | null =>
                                  simp [hk, pySubscript, ht1, dictGetD, hd, pyContains,
                                    ha, hnl, hb, hr, htr, hi, hcv, pyIter]
                                | bool b5 =>
                                  simp [hk, pySubscript, ht1, dictGetD, hd, pyContains,
                                    ha, hnl, hb, hr, htr, hi, hcv, pyIter]
                                | num m5 =>
                                  simp [hk, pySubscript, ht1, dictGetD, hd, pyContains,
                                    ha, hnl, hb, hr, htr, hi, hcv, pyIter]
                                | arr xs5 =>
                                  have hstep : ∀ x ∈ xs5,
                                      loadComments n x (d + 1) ≠ .error .outOfFuel := by
                                    intro x hx
                                    apply ih
                                    have l1 : jsize x < jsize (JValue.arr xs5) :=
                                      jsize_lt_of_mem_arr hx
                                    omega
                                  have hfold :=
                                    foldl_load_ne_outOfFuel n (d + 1) xs5 [] hstep
                                  simp only [hk, pySubscript, ht1, dictGetD, hd,
                                    pyContains, ha, hnl, hb, hr, htr, hi, hcv, pyIter,
                                    Option.getD_some, Option.isSome_some, Bool.not_true,
                                    Bool.not_false, if_false, if_true]
                                  exact match_fold_ne _ _ hfold
                                | obj gs =>
                                  have hstep : ∀ x ∈ gs.map (fun p => JValue.str p.1),
                                      loadComments n x (d + 1) ≠ .error .outOfFuel := by
                                    intro x hx
                                    obtain ⟨p, hp, rfl⟩ := List.mem_map.mp hx
                                    apply ih
                                    have l1 : jsize (JValue.str p.1) < jsize (JValue.obj gs) :=
                                      jsize_key_lt_obj hp
                                    omega
                                  have hfold :=
                                    foldl_load_ne_outOfFuel n (d + 1)
                                      (gs.map (fun p => JValue.str p.1)) [] hstep
                                  simp only [hk, pySubscript, ht1, dictGetD, hd,
                                    pyContains, ha, hnl, hb, hr, htr, hi, hcv, pyIter,
                                    Option.getD_some, Option.isSome_some, Bool.not_true,
                                    Bool.not_false, if_false, if_true]
                                  exact match_fold_ne _ _ hfold
                                | str s5 =>
                                  have hstep : ∀ x ∈ s5.data.map
                                        (fun c => JValue.str (String.singleton c)),
                                      loadComments n x (d + 1) ≠ .error .outOfFuel := by
                                    intro x hx
                                    obtain ⟨c, hc, rfl⟩ := List.mem_map.mp hx
                                    apply ih
                                    have l1 := jsize_singleton c
                                    omega
                                  have hfold :=
                                    foldl_load_ne_outOfFuel n (d + 1)
                                      (s5.data.map (fun c => JValue.str (String.singleton c)))
                                      [] hstep
                                  simp only [hk, pySubscript, ht1, dictGetD, hd,
                                    pyContains, ha, hnl, hb, hr, htr, hi, hcv, pyIter,
                                    Option.getD_some, Option.isSome_some, Bool.not_true,
                                    Bool.not_false, if_false, if_true]
                                  exact match_fold_ne _ _ hfold

/-- Closed instance discharging the hypothesis of the termination theorem:
a concrete two-level comment node evaluated with fuel at its size bound. -/
theorem c4_load_comments_terminates_witness :
    jsize (JValue.obj [("kind", JValue.str "t1"),
      ("data", JValue.obj [("author", JValue.str "a"), ("body", JValue.str "b")])]) ≤ 40
    ∧ loadComments 40 (JValue.obj [("kind", JValue.str "t1"),
        ("data", JValue.obj [("author", JValue.str "a"), ("body", JValue.str "b")])]) 0
      ≠ Except.error PyError.outOfFuel :=
  ⟨by decide, c4_load_comments_terminates _ 0 40 (by decide)⟩

/-- C2: a node whose `kind` is absent or differs from `"t1"`, or whose data
dictionary lacks an `author` key or maps it to `None`, is skipped whole:
no widget is appended and no recursive call happens (the result is the empty
widget list at every fuel, in particular at fuel 1 where any recursive call
would have run out of fuel). -/
theorem c2_guard_skips (fuel d : Nat) (fs : List (String × JValue))
    (h : dictGet fs "kind" = none
       ∨ (∃ k, dictGet fs "kind" = some k ∧ pyEqStr k "t1" = false)
       ∨ (∃ ds, (dictGet fs "data").getD (.obj []) = .obj ds
           ∧ (dictGet ds "author" = none ∨ dictGet ds "author" = some .null))) :
    loadComments (fuel + 1) (.obj fs) d = .ok [] := by
  simp only [loadComments, pyContains]
  rcases h with hk | ⟨k, hk, ht1⟩ | ⟨ds, hds, ha⟩
  · simp [hk]
  · simp [hk, pySubscript, ht1]
  · cases hk : dictGet fs "kind" with
    | none => simp [hk]
    | some kv =>
      cases ht1 : pyEqStr kv "t1" with
      | false => simp [hk, pySubscript, ht1]
      | true =>
        rcases ha with ha | ha
        · simp [hk, pySubscript, ht1, dictGetD, hds, pyContains, ha]
        · simp [hk, pySubscript, ht1, dictGetD, hds, pyContains, ha, JValue.isNull]

/-- Closed instance of the guard-skip theorem at a node of kind `"t3"`. -/
theorem c2_guard_skips_witness :
    loadComments 1 (JValue.obj [("kind", JValue.str "t3")]) 0 = .ok [] :=
  c2_guard_skips 0 0 _ (Or.inr (Or.inl ⟨JValue.str "t3", rfl, rfl⟩))

/-- C3 counterexample: `__load_comments` is not exception-free on dictionary
input — a node of kind `"t1"` with a present, non-`None` author whose data
lacks a `"body"` key raises `KeyError("body")` (the unguarded
`data["body"]` at `post_detail.py:130`). -/
theorem c3_counterexample :
    loadComments 1 (JValue.obj [("kind", JValue.str "t1"),
      ("data", JValue.obj [("author", JValue.str "commenter")])]) 0
      = .error (.keyError "body") := rfl

/-- C3 (amended): nodes rejected by the kind/author guards are skipped
silently, but a node that passes both guards and lacks a `"body"` key is not
skipped: the loader raises `KeyError("body")`. -/
theorem c3_missing_body_raises (fuel d : Nat) (fs ds : List (String × JValue))
    (a : JValue)
    (hk : dictGet fs "kind" = some (.str "t1"))
    (hd : (dictGet fs "data").getD (.obj []) = .obj ds)
    (ha : dictGet ds "author" = some a)
    (hnull : a.isNull = false)
    (hb : dictGet ds "body" = none) :
    loadComments (fuel + 1) (.obj fs) d = .error (.keyError "body") := by
  simp [loadComments, pyContains, hk, pySubscript, pyEqStr, dictGetD, hd, ha, hnull, hb]

/-- Closed instance of the missing-body theorem. -/
theorem c3_missing_body_raises_witness :
    loadComments 1 (JValue.obj [("kind", JValue.str "t1"),
      ("data", JValue.obj [("author", JValue.str "u2")])]) 0
      = .error (.keyError "body") :=
  c3_missing_body_raises 0 0 _ _ (JValue.str "u2") rfl rfl rfl rfl rfl

/-- C1: a rendered node at nesting level `d` gets a comment box with
`margin_start = d * 30`, placed before its reply subtree, and every child of
`replies.data.children` is processed by a recursive call at level `d + 1`;
a rendered node without a replies entry gets the same `d * 30` box and makes
no recursive call. -/
theorem c1_indentation_and_recursion (fuel d : Nat)
    (fs ds : List (String × JValue)) (a b : JValue)
    (hk : dictGet fs "kind" = some (.str "t1"))
    (hd : (dictGet fs "data").getD (.obj []) = .obj ds)
    (ha : dictGet ds "author" = some a)
    (hnull : a.isNull = false)
    (hb : dictGet ds "body" = some b) :
    (∀ (rf df : List (String × JValue)) (xs : List JValue),
      dictGet ds "replies" = some (.obj rf) → rf ≠ [] →
      dictGet rf "data" = some (.obj df) →
      (dictGet df "children").getD (.arr []) = .arr xs →
      loadComments (fuel + 1) (.obj fs) d =
        match xs.foldlM
            (fun (acc : List RenderedComment) reply =>
              match loadComments fuel reply (d + 1) with
              | Except.error e => Except.error e
              | Except.ok rs => Except.ok (acc ++ rs)) [] with
        | Except.error e => Except.error e
        | Except.ok rest =>
          Except.ok (⟨d * 30, a, b, (dictGet ds "score").getD (.num 0)⟩ :: rest))
    ∧ (dictGet ds "replies" = none →
        loadComments (fuel + 1) (.obj fs) d
          = Except.ok [⟨d * 30, a, b, (dictGet ds "score").getD (.num 0)⟩]) := by
  constructor
  · intro rf df xs hr hrne hi hc
    have htr : pyTruthy (JValue.obj rf) = true := by
      cases rf with
      | nil => exact absurd rfl hrne
      | cons p t => simp [pyTruthy]
    simp [loadComments, pyContains, hk, pySubscript, pyEqStr, dictGetD, hd, ha, hnull,
      hb, hr, htr, hi, hc, pyIter]
  · intro hr
    simp [loadComments, pyContains, hk, pySubscript, pyEqStr, dictGetD, hd, ha, hnull,
      hb, hr, pyTruthy]

/-- Closed instance of the indentation theorem: one childless rendered node
at level 0 yields exactly its own widget with margin 0. -/
theorem c1_indentation_and_recursion_witness :
    loadComments 1 (JValue.obj [("kind", JValue.str "t1"),
      ("data", JValue.obj [("author", JValue.str "w"), ("body", JValue.str "text"),
        ("replies", JValue.obj [("data", JValue.obj [("children", JValue.arr [])])])])]) 0
      = Except.ok [⟨0, JValue.str "w", JValue.str "text", JValue.num 0⟩] :=
  ((c1_indentation_and_recursion 0 0
    [("kind", JValue.str "t1"),
     ("data", JValue.obj [("author", JValue.str "w"), ("body", JValue.str "text"),
       ("replies", JValue.obj [("data", JValue.obj [("children", JValue.arr [])])])])]
    [("author", JValue.str "w"), ("body", JValue.str "text"),
     ("replies", JValue.obj [("data", JValue.obj [("children", JValue.arr [])])])]
    (JValue.str "w") (JValue.str "text")
    rfl rfl rfl rfl rfl).1
    [("data", JValue.obj [("children", JValue.arr [])])]
    [("children", JValue.arr [])]
    []
    rfl (by simp) rfl rfl).trans rfl

/-- C5: on a transport error of the underlying HTTP call, the early client
(`utils/services.py`) swallows it and returns `None`, while every method of
the later client (`services.py`) surfaces an exception of the underlying
HTTP library's type — httpx errors for the six httpx-backed methods (wrapped
by the `except` clause where it names `httpx.RequestError`, passed through
unchanged in `retrieve_user_details`/`retrieve_comments` whose clause names
`requests.RequestException`), and a requests exception for `submit_post` —
and never returns `None`. -/
theorem c5_transport_error_handling (msg : String) :
    UtilsServices.generate_access_token
        (Except.error (HttpError.requestsRequestException msg)) = .ok none
    ∧ UtilsServices.retrieve_listings
        (Except.error (HttpError.requestsRequestException msg)) = .ok none
    ∧ Services.generate_access_token
        (Except.error (HttpError.httpxRequestError msg))
        = .error (.httpxRequestError "Failed to generate access token")
    ∧ Services.retrieve_listings
        (Except.error (HttpError.httpxRequestError msg))
        = .error (.httpxRequestError "Failed to retrieve listings")
    ∧ Services.retrieve_user_details
        (Except.error (HttpError.httpxRequestError msg))
        = .error (.httpxRequestError msg)
    ∧ Services.retrieve_comments
        (Except.error (HttpError.httpxRequestError msg))
        = .error (.httpxRequestError msg)
    ∧ Services.retrieve_profile_details
        (Except.error (HttpError.httpxRequestError msg))
        = .error (.httpxRequestError "Failed to retrieve about details")
    ∧ Services.retrieve_subreddits
        (Except.error (HttpError.httpxRequestError msg))
        = .error (.httpxRequestError "Failed to retrieve subreddits")
    ∧ Services.submit_post
        (Except.error (HttpError.requestsRequestException msg))
        = .error (.requestsRequestException "Failed to submit post") :=
  ⟨rfl, rfl, rfl, rfl, rfl, rfl, rfl, rfl, rfl⟩

/-- C6: after `inject_token` the Authorization header is exactly
`"Bearer " ++ token`; every request method sends that headers dictionary;
each retrieval method targets the documented oauth endpoint; and any
response, whatever its status, becomes a `{"status_code", "json"}` result
without raising on the status code. -/
theorem c6_request_construction (h0 : Headers)
    (token category postId username profileCategory : String) (res : HttpResponse) :
    (Services.inject_token h0 token).authorization = "Bearer " ++ token
    ∧ (Services.generate_access_token_request (Services.inject_token h0 token)).headers
        = Services.inject_token h0 token
    ∧ (Services.retrieve_listings_request (Services.inject_token h0 token) category).headers
        = Services.inject_token h0 token
    ∧ (Services.retrieve_user_details_request (Services.inject_token h0 token)).headers
        = Services.inject_token h0 token
    ∧ (Services.retrieve_comments_request (Services.inject_token h0 token) postId).headers
        = Services.inject_token h0 token
    ∧ (Services.retrieve_profile_details_request (Services.inject_token h0 token)
        username profileCategory).headers = Services.inject_token h0 token
    ∧ (Services.retrieve_subreddits_request (Services.inject_token h0 token)).headers
        = Services.inject_token h0 token
    ∧ (Services.submit_post_request (Services.inject_token h0 token)).headers
        = Services.inject_token h0 token
    ∧ (Services.retrieve_listings_request (Services.inject_token h0 token) category).url
        = "https://oauth.reddit.com/" ++ category
    ∧ (Services.retrieve_user_details_request (Services.inject_token h0 token)).url
        = "https://oauth.reddit.com/api/v1/me"
    ∧ (Services.retrieve_comments_request (Services.inject_token h0 token) postId).url
        = "https://oauth.reddit.com/comments/" ++ postId
    ∧ (Services.retrieve_profile_details_request (Services.inject_token h0 token)
        username profileCategory).url
        = "https://oauth.reddit.com/user/" ++ username ++ "/" ++ profileCategory
    ∧ (Services.retrieve_subreddits_request (Services.inject_token h0 token)).url
        = "https://oauth.reddit.com/subreddits/mine/subscriber"
    ∧ (Services.submit_post_request (Services.inject_token h0 token)).url
        = "https://oauth.reddit.com/api/submit"
    ∧ Services.generate_access_token (Except.ok res) = .ok ⟨res.status_code, res.body⟩
    ∧ Services.retrieve_listings (Except.ok res) = .ok ⟨res.status_code, res.body⟩
    ∧ Services.retrieve_user_details (Except.ok res) = .ok ⟨res.status_code, res.body⟩
    ∧ Services.retrieve_comments (Except.ok res) = .ok ⟨res.status_code, res.body⟩
    ∧ Services.retrieve_profile_details (Except.ok res) = .ok ⟨res.status_code, res.body⟩
    ∧ Services.retrieve_subreddits (Except.ok res) = .ok ⟨res.status_code, res.body⟩
    ∧ Services.submit_post (Except.ok res) = .ok ⟨res.status_code, res.body⟩ :=
  ⟨rfl, rfl, rfl, rfl, rfl, rfl, rfl, rfl, rfl, rfl, rfl, rfl, rfl, rfl, rfl, rfl, rfl,
   rfl, rfl, rfl, rfl⟩

/-- C7: every operation of the later REST client builds exactly one request
with a fixed 30-second timeout, and a failed attempt is surfaced as an error
— never retried into a success (each method is a function of the outcome of
its single attempt). -/
theorem c7_single_attempt_fixed_timeout (h : Headers)
    (category postId username profileCategory : String) (e : HttpError) :
    (Services.generate_access_token_request h).timeout = 30
    ∧ (Services.retrieve_listings_request h category).timeout = 30
    ∧ (Services.retrieve_user_details_request h).timeout = 30
    ∧ (Services.retrieve_comments_request h postId).timeout = 30
    ∧ (Services.retrieve_profile_details_request h username profileCategory).timeout = 30
    ∧ (Services.retrieve_subreddits_request h).timeout = 30
    ∧ (Services.submit_post_request h).timeout = 30
    ∧ (∃ f, Services.generate_access_token (Except.error e) = .error f)
    ∧ (∃ f, Services.retrieve_listings (Except.error e) = .error f)
    ∧ (∃ f, Services.retrieve_user_details (Except.error e) = .error f)
    ∧ (∃ f, Services.retrieve_comments (Except.error e) = .error f)
    ∧ (∃ f, Services.retrieve_profile_details (Except.error e) = .error f)
    ∧ (∃ f, Services.retrieve_subreddits (Except.error e) = .error f)
    ∧ (∃ f, Services.submit_post (Except.error e) = .error f) := by
  refine ⟨rfl, rfl, rfl, rfl, rfl, rfl, rfl, ?_, ?_, ?_, ?_, ?_, ?_, ?_⟩ <;>
    cases e <;> exact ⟨_, rfl⟩

/-- C9: `AWSClient.create_secret` returns the wrapped success dictionary
when the AWS create call succeeds, returns the result of `update_secret`
when the create call fails with `ResourceExistsException`, and falls off the
function (returning `None`) on a `ClientError` with any other code. -/
theorem c9_create_secret_cases (res : JValue) (upd : AwsOutcome) (code : String)
    (hne : code ≠ "ResourceExistsException") :
    create_secret (.ok res) upd
      = .ok (some (.obj [("status", .str "success"), ("json", res)]))
    ∧ create_secret (.clientError "ResourceExistsException") upd
      = (update_secret upd).map some
    ∧ create_secret (.clientError code) upd = .ok none := by
  refine ⟨rfl, rfl, ?_⟩
  simp only [create_secret]
  rw [if_neg (by simpa using hne)]

/-- Closed instance of the `create_secret` case theorem at a distinct error
code. -/
theorem c9_create_secret_cases_witness :
    create_secret (.clientError "AccessDeniedException") (.ok .null) = .ok none :=
  (c9_create_secret_cases JValue.null (.ok .null) "AccessDeniedException"
    (by decide)).2.2

/-- C8: building the sort popover during a home-page render mutates the
process-wide sort state: `render_page` leaves `store.current_sort` exactly 4
above its entry value (whenever the five label lookups stay in range of the
five-element `post_sort_type`, which forces the entry value 0), so a render
starting from 0 ends with `current_sort = 4`. -/
theorem c8_sort_popover_mutates_store (s : Nat) (h : s + 4 < post_sort_type.length) :
    render_page_sort_state s = .ok (s + 4) := by
  have h5 : post_sort_type.length = 5 := rfl
  have hs : s = 0 := by omega
  subst hs
  rfl

/-- Closed instance of the sort-state theorem: rendering from
`current_sort = 0` leaves the store at 4. -/
theorem c8_sort_popover_mutates_store_witness :
    0 + 4 < post_sort_type.length ∧ render_page_sort_state 0 = .ok (0 + 4) :=
  ⟨by decide, c8_sort_popover_mutates_store 0 (by decide)⟩

/-- C10: `get_submission_time` buckets on the absolute difference between
now and the timestamp — under 60 seconds a fixed string, then floor-divided
minutes, hours, days and weeks at the documented boundaries, with the plural
`"s"` exactly when the count exceeds 1 — and is symmetric in its arguments,
so a future timestamp formats like an equally distant past one. -/
theorem c10_submission_time_buckets (now t : Int) :
    get_submission_time now t = get_submission_time t now
    ∧ ((now - t).natAbs < 60 →
        get_submission_time now t = "Less than a minute ago")
    ∧ (60 ≤ (now - t).natAbs → (now - t).natAbs < 3600 →
        get_submission_time now t
          = toString ((now - t).natAbs / 60) ++ " minute"
            ++ (if (now - t).natAbs / 60 > 1 then "s" else "") ++ " ago")
    ∧ (3600 ≤ (now - t).natAbs → (now - t).natAbs < 86400 →
        get_submission_time now t
          = toString ((now - t).natAbs / 3600) ++ " hour"
            ++ (if (now - t).natAbs / 3600 > 1 then "s" else "") ++ " ago")
    ∧ (86400 ≤ (now - t).natAbs → (now - t).natAbs < 604800 →
        get_submission_time now t
          = toString ((now - t).natAbs / 86400) ++ " day"
            ++ (if (now - t).natAbs / 86400 > 1 then "s" else "") ++ " ago")
    ∧ (604800 ≤ (now - t).natAbs →
        get_submission_time now t
          = toString ((now - t).natAbs / 604800) ++ " week"
            ++ (if (now - t).natAbs / 604800 > 1 then "s" else "") ++ " ago") := by
  refine ⟨?_, ?_, ?_, ?_, ?_, ?_⟩
  · have habs : (now - t).natAbs = (t - now).natAbs := by omega
    simp only [get_submission_time]
    rw [habs]
  · intro h1
    simp only [get_submission_time, Seconds.MINUTE]
    rw [if_pos h1]
  · intro h1 h2
    simp only [get_submission_time, Seconds.MINUTE, Seconds.HOUR]
    rw [if_neg (by omega), if_pos h2]
  · intro h1 h2
    simp only [get_submission_time, Seconds.MINUTE, Seconds.HOUR, Seconds.DAY]
    rw [if_neg (by omega), if_neg (by omega), if_pos h2]
  · intro h1 h2
    simp only [get_submission_time, Seconds.MINUTE, Seconds.HOUR, Seconds.DAY,
      Seconds.WEEK]
    rw [if_neg (by omega), if_neg (by omega), if_neg (by omega), if_pos h2]
  · intro h1
    simp only [get_submission_time, Seconds.MINUTE, Seconds.HOUR, Seconds.DAY,
      Seconds.WEEK]
    rw [if_neg (by omega), if_neg (by omega), if_neg (by omega), if_neg (by omega)]

/-- Closed instance of the bucket theorem: two hours of difference format as
`"2 hours ago"`. -/
theorem c10_submission_time_buckets_witness :
    get_submission_time 7200 0 = "2 hours ago" :=
  ((c10_submission_time_buckets 7200 0).2.2.2.1 (by decide) (by decide)).trans rfl
